import Mathlib

/-!
Verification development for the dm-dust device-mapper target
(src/dm-dust.c): a shallow embedding of its bad-block registries and
mapping logic, followed by theorems about the embedded operations.

Modelling conventions:
- The two red-black trees (`badblocklist_read`, `badblocklist_write`) are
  embedded as lists of `Badblock` in tree order (strictly increasing `bb`
  keys); `dust_rb_search`, `dust_rb_insert` and `rb_erase` operate on that
  inorder view exactly as the tree operations do on the tree.
- The `unsigned long long` counters wrap modulo 2^64 (`u64succ`/`u64pred`).
- The `unsigned char` write-fail count is stored reduced modulo 256.
- `spin_lock`/`spin_unlock` pairs delimit atomic sections; since the embedded
  operations are whole critical sections, they are plain state transformers.
- `BUG_ON` is modelled by an `Option` result: `none` means the assertion
  fired (kernel panic).
- `DMERR`/`DMINFO` logging is pure narration and is omitted.
-/

/-- Mode flag values from the source: `#define RD false`. -/
def RD : Bool := false

/-- Mode flag values from the source: `#define WR true`. -/
def WR : Bool := true

/-- Error number used by the source for invalid arguments. -/
def EINVAL : Int := 22

/-- Modulus of the `unsigned long long` counters. -/
def U64 : Nat := 2 ^ 64

/-- Wrapping increment of an `unsigned long long` value. -/
def u64succ (n : Nat) : Nat := (n + 1) % U64

/-- Wrapping decrement of an `unsigned long long` value. -/
def u64pred (n : Nat) : Nat := (n + (U64 - 1)) % U64

/-- Verdicts returned by the mapping path (`DM_MAPIO_*` in the kernel). -/
inductive MapResult where
  | DM_MAPIO_KILL
  | DM_MAPIO_REMAPPED
deriving DecidableEq, Repr

export MapResult (DM_MAPIO_KILL DM_MAPIO_REMAPPED)

/-- One bad-block record (`struct badblock`): the block key `bb` and the
remaining forced-write-failure count `wr_fail_cnt`. -/
structure Badblock where
  bb : Nat
  wr_fail_cnt : Nat
deriving DecidableEq, Repr

/-- The per-device state (`struct dust_device`), restricted to the fields the
registry and mapping logic read or write. -/
structure DustDevice where
  badblocklist_read : List Badblock
  badblocklist_write : List Badblock
  badblock_count_read : Nat
  badblock_count_write : Nat
  sect_per_block : Nat
  sect_per_block_shift : Nat
  fail_write_on_bb : Bool
  fail_read_on_bb : Bool
  quiet_mode : Bool
deriving DecidableEq, Repr

/-- Device state right after `dust_ctr`: empty registries, zero counts, all
flags false, with the given sectors-per-block geometry. -/
def freshDevice (spb shift : Nat) : DustDevice :=
  { badblocklist_read := []
    badblocklist_write := []
    badblock_count_read := 0
    badblock_count_write := 0
    sect_per_block := spb
    sect_per_block_shift := shift
    fail_write_on_bb := false
    fail_read_on_bb := false
    quiet_mode := false }

/-- Embeds `dust_rb_search`: exact-key lookup, on the inorder view of the
tree. -/
def dust_rb_search : List Badblock → Nat → Option Badblock
  | [], _ => none
  | e :: t, blk => if e.bb = blk then some e else dust_rb_search t blk

/-- Embeds `dust_rb_insert` on the inorder view: descend past keys smaller
than the new key, place the new entry before the first larger key, and fail
(`none`) on an equal key, exactly as the tree insert does. -/
def dust_rb_insert : List Badblock → Badblock → Option (List Badblock)
  | [], e => some [e]
  | x :: t, e =>
      if x.bb > e.bb then some (e :: x :: t)
      else if x.bb < e.bb then (dust_rb_insert t e).map (fun l => x :: l)
      else none

/-- Embeds `rb_erase` applied to the node found by a prior search: remove the
first entry carrying the key. -/
def rb_erase : List Badblock → Nat → List Badblock
  | [], _ => []
  | e :: t, blk => if e.bb = blk then t else e :: rb_erase t blk

/-- In-place decrement of `wr_fail_cnt` on the entry found at the key, as
`bblk_r->wr_fail_cnt--` does on the node returned by the search. -/
def decrBudget (l : List Badblock) (blk : Nat) : List Badblock :=
  l.map (fun e => if e.bb = blk then { e with wr_fail_cnt := e.wr_fail_cnt - 1 } else e)

/-- Embeds `dust_remove_block`: search the mode-selected registry, return
`-EINVAL` if absent, otherwise erase the node and decrement the
mode-selected counter. -/
def dust_remove_block (dd : DustDevice) (block : Nat) (mode : Bool) : Int × DustDevice :=
  let bblock := if mode = RD then dust_rb_search dd.badblocklist_read block
                else dust_rb_search dd.badblocklist_write block
  match bblock with
  | none => (-EINVAL, dd)
  | some _ =>
      let dd1 := if mode = RD
        then { dd with badblocklist_read := rb_erase dd.badblocklist_read block }
        else { dd with badblocklist_write := rb_erase dd.badblocklist_write block }
      let dd2 := if mode = RD
        then { dd1 with badblock_count_read := u64pred dd1.badblock_count_read }
        else { dd1 with badblock_count_write := u64pred dd1.badblock_count_write }
      (0, dd2)

/-- Embeds `dust_add_block`: insert a fresh entry into the mode-selected
registry, returning `-EINVAL` on a duplicate key. On success the source
increments `badblock_count_read` on BOTH mode branches (lines 176-179 of
dm-dust.c); the embedding reproduces that faithfully, so the write branch
below updates `badblock_count_read`, not `badblock_count_write`. -/
def dust_add_block (dd : DustDevice) (block : Nat) (wr_fail_cnt : Nat) (mode : Bool) :
    Int × DustDevice :=
  let bblock : Badblock := { bb := block, wr_fail_cnt := wr_fail_cnt % 256 }
  if mode = RD then
    match dust_rb_insert dd.badblocklist_read bblock with
    | none => (-EINVAL, dd)
    | some l =>
        (0, { dd with badblocklist_read := l,
                      badblock_count_read := u64succ dd.badblock_count_read })
  else
    match dust_rb_insert dd.badblocklist_write bblock with
    | none => (-EINVAL, dd)
    | some l =>
        (0, { dd with badblocklist_write := l,
                      badblock_count_read := u64succ dd.badblock_count_read })

/-- Embeds `dust_query_block`: a guarded search whose outcome is only
logged; the state is untouched and the return value is always 0. -/
def dust_query_block (dd : DustDevice) (block : Nat) (mode : Bool) : Int × DustDevice :=
  let _bblock := if mode = RD then dust_rb_search dd.badblocklist_read block
                 else dust_rb_search dd.badblocklist_write block
  (0, dd)

/-- Embeds `__dust_map_read`: a pure lookup in the read registry; KILL when
the block is present, REMAPPED otherwise. The C function performs no store,
which the embedding reflects by returning only the verdict. -/
def __dust_map_read (dd : DustDevice) (thisblock : Nat) : MapResult :=
  match dust_rb_search dd.badblocklist_read thisblock with
  | some _ => DM_MAPIO_KILL
  | none => DM_MAPIO_REMAPPED

/-- Embeds `dust_map_read`: when the read-failure flag is passed as true,
shift the sector to a block index and consult `__dust_map_read` under the
lock; otherwise REMAPPED with no lookup. -/
def dust_map_read (dd : DustDevice) (thisblock : Nat) (fail_read_on_bb : Bool) : MapResult :=
  if fail_read_on_bb then __dust_map_read dd (thisblock >>> dd.sect_per_block_shift)
  else DM_MAPIO_REMAPPED

/-- Embeds `__dust_map_write`. The source searches both registries, then:
returns KILL at once when `fail_write_on_bb` is set and the write registry
holds the block (no mutation); otherwise, when `fail_read_on_bb` is set and
the read registry holds the block, it decrements a positive budget and
returns KILL, or erases the entry, decrements `badblock_count_read` and
falls through to REMAPPED when the budget is exhausted. -/
def __dust_map_write (dd : DustDevice) (thisblock : Nat) : MapResult × DustDevice :=
  let bblk_r := dust_rb_search dd.badblocklist_read thisblock
  let bblk_w := dust_rb_search dd.badblocklist_write thisblock
  if dd.fail_write_on_bb && bblk_w.isSome then
    (DM_MAPIO_KILL, dd)
  else if dd.fail_read_on_bb then
    match bblk_r with
    | some bblk =>
        if bblk.wr_fail_cnt > 0 then
          (DM_MAPIO_KILL,
           { dd with badblocklist_read := decrBudget dd.badblocklist_read thisblock })
        else
          (DM_MAPIO_REMAPPED,
           { dd with badblocklist_read := rb_erase dd.badblocklist_read thisblock,
                     badblock_count_read := u64pred dd.badblock_count_read })
    | none => (DM_MAPIO_REMAPPED, dd)
  else (DM_MAPIO_REMAPPED, dd)

/-- Embeds `dust_map_write`: when either failure flag is passed as true,
shift the sector to a block index and run `__dust_map_write` under the lock;
when both are false, REMAPPED with no lookup and no state change. -/
def dust_map_write (dd : DustDevice) (thisblock : Nat)
    (fail_read_on_bb fail_write_on_bb : Bool) : MapResult × DustDevice :=
  if fail_write_on_bb then __dust_map_write dd (thisblock >>> dd.sect_per_block_shift)
  else if fail_read_on_bb then __dust_map_write dd (thisblock >>> dd.sect_per_block_shift)
  else (DM_MAPIO_REMAPPED, dd)

/-- Embeds `dust_map`'s dispatch: reads go through `dust_map_read` with the
device's read flag, writes through `dust_map_write` with both device flags. -/
def dust_map (dd : DustDevice) (is_write : Bool) (sector : Nat) : MapResult × DustDevice :=
  if is_write then dust_map_write dd sector dd.fail_read_on_bb dd.fail_write_on_bb
  else (dust_map_read dd sector dd.fail_read_on_bb, dd)

/-- The freeing loop of `__dust_clear_badblocks`: one wrapping `count--` per
entry freed; returns the final value of `count`. -/
def clearLoop (l : List Badblock) (count : Nat) : Nat :=
  l.foldl (fun c _ => u64pred c) count

/-- Embeds `__dust_clear_badblocks` on a detached tree and its count: the
`rb_first == NULL` test becomes an emptiness test, and `none` means a
`BUG_ON(count != 0)` fired; otherwise `some b` where `b` reports whether any
entry was freed (the source's boolean return). -/
def __dust_clear_badblocks (tree : List Badblock) (count : Nat) : Option Bool :=
  if tree.isEmpty then
    if count ≠ 0 then none else some false
  else
    let final := clearLoop tree count
    if final ≠ 0 then none else some true

/-- Embeds `dust_clear_badblocks`: under the lock, detach the mode-selected
tree and counter and reset them to empty/zero; then free the detached tree
outside the lock. Result is `none` when the defensive assertion fires,
otherwise `some (0, newState)`. -/
def dust_clear_badblocks (dd : DustDevice) (mode : Bool) : Option (Int × DustDevice) :=
  if mode = RD then
    let detached := dd.badblocklist_read
    let dcount := dd.badblock_count_read
    let dd1 := { dd with badblocklist_read := [], badblock_count_read := 0 }
    match __dust_clear_badblocks detached dcount with
    | none => none
    | some _ => some (0, dd1)
  else
    let detached := dd.badblocklist_write
    let dcount := dd.badblock_count_write
    let dd1 := { dd with badblocklist_write := [], badblock_count_write := 0 }
    match __dust_clear_badblocks detached dcount with
    | none => none
    | some _ => some (0, dd1)

/-- Embeds the `enable read` / `enable write` branches of `dust_message`:
set the mode-selected failure flag, return 0. -/
def dust_message_enable (dd : DustDevice) (mode : Bool) : Int × DustDevice :=
  if mode = RD then (0, { dd with fail_read_on_bb := true })
  else (0, { dd with fail_write_on_bb := true })

/-- Embeds the `disable read` / `disable write` branches of `dust_message`:
clear the mode-selected failure flag, return 0. -/
def dust_message_disable (dd : DustDevice) (mode : Bool) : Int × DustDevice :=
  if mode = RD then (0, { dd with fail_read_on_bb := false })
  else (0, { dd with fail_write_on_bb := false })

/-- Embeds the three-argument `addbadblock` path of `dust_message`
(`wfc = none`, budget defaults to 0) and the four-argument path
(`wfc = some v`): the four-argument path first rejects `v > 255`, then both
paths reject `block > size / sect_per_block`, and an accepted call is
forwarded to `dust_add_block`. `size` is the device size in sectors. -/
def dust_message_addbadblock (dd : DustDevice) (mode : Bool) (block : Nat)
    (wfc : Option Nat) (size : Nat) : Int × DustDevice :=
  match wfc with
  | none =>
      if block > size / dd.sect_per_block then (-EINVAL, dd)
      else dust_add_block dd block 0 mode
  | some tmp_ui =>
      if tmp_ui > 255 then (-EINVAL, dd)
      else if block > size / dd.sect_per_block then (-EINVAL, dd)
      else dust_add_block dd block tmp_ui mode

/-- Embeds the `removebadblock` path of `dust_message`: reject
`block > size / sect_per_block`, otherwise forward to `dust_remove_block`. -/
def dust_message_removebadblock (dd : DustDevice) (mode : Bool) (block : Nat)
    (size : Nat) : Int × DustDevice :=
  if block > size / dd.sect_per_block then (-EINVAL, dd)
  else dust_remove_block dd block mode

/-- Embeds the `queryblock` path of `dust_message`: reject
`block > size / sect_per_block`, otherwise forward to `dust_query_block`. -/
def dust_message_queryblock (dd : DustDevice) (mode : Bool) (block : Nat)
    (size : Nat) : Int × DustDevice :=
  if block > size / dd.sect_per_block then (-EINVAL, dd)
  else dust_query_block dd block mode

/-- Key membership in a registry list. -/
def hasKey : List Badblock → Nat → Bool
  | [], _ => false
  | e :: t, k => (e.bb == k) || hasKey t k

/-- Every key in the list is strictly greater than `k`. -/
def allGt : Nat → List Badblock → Bool
  | _, [] => true
  | k, e :: t => (decide (k < e.bb)) && allGt k t

/-- Keys are strictly increasing, the invariant of the inorder view of the
red-black tree. -/
def sortedB : List Badblock → Bool
  | [] => true
  | e :: t => allGt e.bb t && sortedB t

/-- Device used by the scenario and failing-input theorems: 512-byte blocks,
so one sector per block and a zero shift. -/
def dd0 : DustDevice := freshDevice 1 0

/-- C1: the claim is right and the code is wrong. On a fresh device,
`dust_add_block` in write mode succeeds (returns 0) and inserts one entry
into the write registry, yet `badblock_count_write` stays 0 while
`badblock_count_read` becomes 1 — both mode branches of the source's add
path increment the read counter. The code even contradicts its own
`BUG_ON`: clearing the write registry from that state panics (`none`). -/
theorem C1_add_write_count_bug :
    (dust_add_block dd0 5 0 WR).1 = 0 ∧
    (dust_add_block dd0 5 0 WR).2.badblocklist_write.length = 1 ∧
    (dust_add_block dd0 5 0 WR).2.badblock_count_write = 0 ∧
    (dust_add_block dd0 5 0 WR).2.badblock_count_read = 1 ∧
    dust_clear_badblocks (dust_add_block dd0 5 0 WR).2 WR = none := by
  decide

/-- Read-failure device for the C4 scenario: `enable read` then
`addbadblock read 10 2` on a fresh device. -/
def c4_dd : DustDevice :=
  (dust_add_block (dust_message_enable dd0 RD).2 10 2 RD).2

/-- First write to block 10 in the C4 scenario. -/
def c4_w1 : MapResult × DustDevice := dust_map c4_dd true 10

/-- Second write to block 10 in the C4 scenario. -/
def c4_w2 : MapResult × DustDevice := dust_map c4_w1.2 true 10

/-- Third write to block 10 in the C4 scenario. -/
def c4_w3 : MapResult × DustDevice := dust_map c4_w2.2 true 10

/-- Fourth write to block 10 in the C4 scenario. -/
def c4_w4 : MapResult × DustDevice := dust_map c4_w3.2 true 10

/-- C4: with `fail_read_on_bb` enabled, `fail_write_on_bb` disabled, and a
read-registry entry at block 10 with budget 2, three successive writes to
block 10 yield KILL (budget 2 to 1), KILL (budget 1 to 0), then REMAPPED
with the entry erased and the read count back to 0; a fourth write and a
subsequent read both yield REMAPPED. -/
theorem C4_selfheal_scenario :
    c4_dd.fail_read_on_bb = true ∧ c4_dd.fail_write_on_bb = false ∧
    c4_dd.badblock_count_read = 1 ∧
    c4_w1.1 = DM_MAPIO_KILL ∧
    dust_rb_search c4_w1.2.badblocklist_read 10 = some { bb := 10, wr_fail_cnt := 1 } ∧
    c4_w2.1 = DM_MAPIO_KILL ∧
    dust_rb_search c4_w2.2.badblocklist_read 10 = some { bb := 10, wr_fail_cnt := 0 } ∧
    c4_w3.1 = DM_MAPIO_REMAPPED ∧
    dust_rb_search c4_w3.2.badblocklist_read 10 = none ∧
    c4_w3.2.badblock_count_read = 0 ∧
    c4_w4.1 = DM_MAPIO_REMAPPED ∧
    (dust_map c4_w4.2 false 10).1 = DM_MAPIO_REMAPPED := by
  decide

/-- C5: the claim is right and the code is wrong in write mode. On a fresh
device, `addBadBlock(write, 5)` followed by `removeBadBlock(write, 5)` does
not restore the prior state: the registries are back to empty, but the read
counter has drifted to 1 (the add incremented it) and the write counter has
wrapped to 2^64 - 1 (the remove decremented it from 0). -/
theorem C5_roundtrip_write_bug :
    (dust_remove_block (dust_add_block dd0 5 0 WR).2 5 WR).2 ≠ dd0 ∧
    (dust_remove_block (dust_add_block dd0 5 0 WR).2 5 WR).2.badblocklist_read = [] ∧
    (dust_remove_block (dust_add_block dd0 5 0 WR).2 5 WR).2.badblocklist_write = [] ∧
    (dust_remove_block (dust_add_block dd0 5 0 WR).2 5 WR).2.badblock_count_read = 1 ∧
    (dust_remove_block (dust_add_block dd0 5 0 WR).2 5 WR).2.badblock_count_write
      = U64 - 1 := by
  decide

/-- C8: with `fail_read_on_bb` passed false, `dust_map_read` is REMAPPED for
every block on every device state (and performs no lookup or mutation); with
both flags passed false, `dust_map_write` is REMAPPED for every block and
returns the state unchanged. -/
theorem C8_disabled_flags_pass (dd : DustDevice) (thisblock : Nat) :
    dust_map_read dd thisblock false = DM_MAPIO_REMAPPED ∧
    dust_map_write dd thisblock false false = (DM_MAPIO_REMAPPED, dd) := by
  exact ⟨rfl, rfl⟩

/-- The counter modulus is positive. -/
theorem U64_pos : 0 < U64 := by decide

/-- A wrapping decrement of a positive in-range value is an ordinary
decrement. -/
theorem u64pred_of_pos {c : Nat} (h0 : 0 < c) (h1 : c < U64) : u64pred c = c - 1 := by
  have hU : 0 < U64 := U64_pos
  unfold u64pred
  have h2 : c + (U64 - 1) = (c - 1) + U64 := by omega
  rw [h2, Nat.add_mod_right]
  exact Nat.mod_eq_of_lt (by omega)

/-- When the detached count equals the number of entries, the freeing loop of
`__dust_clear_badblocks` drives the count exactly to zero. -/
theorem clearLoop_self (l : List Badblock) :
    ∀ c, c = l.length → c < U64 → clearLoop l c = 0 := by
  induction l with
  | nil =>
      intro c h _
      simpa [clearLoop] using h
  | cons e t ih =>
      intro c h hlt
      have hlen : c = t.length + 1 := by simpa using h
      have h0 : 0 < c := by omega
      have hpred : u64pred c = t.length := by
        rw [u64pred_of_pos h0 hlt]
        omega
      have hstep : clearLoop (e :: t) c = clearLoop t (u64pred c) := by
        simp [clearLoop]
      rw [hstep, hpred]
      exact ih t.length rfl (by omega)

/-- On a detached tree whose count matches its cardinality (and is a valid
64-bit value), `__dust_clear_badblocks` never hits a `BUG_ON` and reports
exactly whether the tree was nonempty. -/
theorem clear_badblocks_no_bug (l : List Badblock) (c : Nat)
    (hc : c = l.length) (hlt : c < U64) :
    __dust_clear_badblocks l c = some (!l.isEmpty) := by
  cases l with
  | nil =>
      have hc0 : c = 0 := by simpa using hc
      simp [__dust_clear_badblocks, hc0]
  | cons e t =>
      have h0 := clearLoop_self (e :: t) c hc hlt
      simp [__dust_clear_badblocks, h0]

/-- C3 (amended): on a registry whose count matches its cardinality,
`dust_clear_badblocks` succeeds (the defensive `BUG_ON` never fires),
returns 0 — not the number of entries — while reporting only whether the
registry was nonempty, and leaves the selected registry empty with count
0. -/
theorem C3_clear_badblocks_ok (dd : DustDevice) (mode : Bool)
    (hc : (if mode = RD then dd.badblock_count_read else dd.badblock_count_write)
        = (if mode = RD then dd.badblocklist_read else dd.badblocklist_write).length)
    (hlt : (if mode = RD then dd.badblock_count_read else dd.badblock_count_write) < U64) :
    __dust_clear_badblocks (if mode = RD then dd.badblocklist_read else dd.badblocklist_write)
        (if mode = RD then dd.badblock_count_read else dd.badblock_count_write)
      = some (!(if mode = RD then dd.badblocklist_read else dd.badblocklist_write).isEmpty) ∧
    dust_clear_badblocks dd mode =
      some (0, if mode = RD
               then { dd with badblocklist_read := [], badblock_count_read := 0 }
               else { dd with badblocklist_write := [], badblock_count_write := 0 }) := by
  cases hm : mode with
  | false =>
      simp only [hm, RD, if_pos rfl] at hc hlt ⊢
      have h := clear_badblocks_no_bug dd.badblocklist_read dd.badblock_count_read hc hlt
      refine ⟨h, ?_⟩
      simp [dust_clear_badblocks, RD, h]
  | true =>
      simp only [hm, RD, if_neg (by decide : ¬(true = false))] at hc hlt ⊢
      have h := clear_badblocks_no_bug dd.badblocklist_write dd.badblock_count_write hc hlt
      refine ⟨h, ?_⟩
      simp [dust_clear_badblocks, RD, h]

/-- Read registry with two entries, built by two administrative adds. -/
def exC3 : DustDevice := (dust_add_block (dust_add_block dd0 1 0 RD).2 2 0 RD).2

/-- C3 counterexample to the claim as stated: on a read registry holding
N = 2 entries, `dust_clear_badblocks` returns 0, not N. -/
theorem C3_counterexample :
    exC3.badblocklist_read.length = 2 ∧
    (dust_clear_badblocks exC3 RD).map Prod.fst = some 0 ∧
    (dust_clear_badblocks exC3 RD).map Prod.fst ≠ some 2 := by
  decide

/-- C3 witness: the amended clear theorem applied to the two-entry read
registry. -/
theorem C3_witness :
    dust_clear_badblocks exC3 RD =
      some (0, { exC3 with badblocklist_read := [], badblock_count_read := 0 }) :=
  ((C3_clear_badblocks_ok exC3 RD (by decide) (by decide)).2).trans (by decide)

/-- C2 (amended): in `__dust_map_write`, a write-registry hit under
`fail_write_on_bb` returns KILL immediately and skips the read-registry
interaction entirely (the state is returned unchanged); the budget
decrement / self-heal on a read-registry entry happens only when that first
check did not fire. -/
theorem C2_write_fail_skips_read_interaction (dd : DustDevice) (b : Nat) :
    (dd.fail_write_on_bb = true → (dust_rb_search dd.badblocklist_write b).isSome = true →
       __dust_map_write dd b = (DM_MAPIO_KILL, dd)) ∧
    (dd.fail_read_on_bb = true →
     (dd.fail_write_on_bb = false ∨ (dust_rb_search dd.badblocklist_write b).isSome = false) →
     ∀ e, dust_rb_search dd.badblocklist_read b = some e →
       __dust_map_write dd b =
         (if e.wr_fail_cnt > 0 then
            (DM_MAPIO_KILL,
             { dd with badblocklist_read := decrBudget dd.badblocklist_read b })
          else
            (DM_MAPIO_REMAPPED,
             { dd with badblocklist_read := rb_erase dd.badblocklist_read b,
                       badblock_count_read := u64pred dd.badblock_count_read }))) := by
  constructor
  · intro h1 h2
    simp [__dust_map_write, h1, h2]
  · intro hr hw e he
    have hcond : (dd.fail_write_on_bb
        && (dust_rb_search dd.badblocklist_write b).isSome) = false := by
      rcases hw with h | h <;> simp [h]
    simp [__dust_map_write, hcond, hr, he]

/-- State reached by enabling both flags, then `addbadblock read 7 3` and
`addbadblock write 7`. -/
def exC2 : DustDevice :=
  (dust_add_block (dust_add_block
    (dust_message_enable (dust_message_enable dd0 RD).2 WR).2 7 3 RD).2 7 0 WR).2

/-- C2 counterexample to the claim as stated: with both flags enabled and
block 7 in both registries (read budget 3), the write path returns KILL from
the write-registry check and performs no read-registry interaction — in
particular the budget is not decremented, contradicting the claimed
unconditional fallthrough. -/
theorem C2_counterexample :
    (__dust_map_write exC2 7).1 = DM_MAPIO_KILL ∧
    (__dust_map_write exC2 7).2 = exC2 ∧
    (__dust_map_write exC2 7).2.badblocklist_read
      ≠ decrBudget exC2.badblocklist_read 7 := by
  decide

/-- Same state as `exC2` but with the write-failure flag off, so the first
check of `__dust_map_write` cannot fire. -/
def exC2w : DustDevice := { exC2 with fail_write_on_bb := false }

/-- C2 witness: the amended theorem applied at block 7, once with the
write-registry check firing (KILL, untouched state) and once with it
disabled (budget decrement happens). -/
theorem C2_witness :
    __dust_map_write exC2 7 = (DM_MAPIO_KILL, exC2) ∧
    __dust_map_write exC2w 7 =
      (DM_MAPIO_KILL,
       { exC2w with badblocklist_read := decrBudget exC2w.badblocklist_read 7 }) := by
  constructor
  · exact (C2_write_fail_skips_read_interaction exC2 7).1 (by decide) (by decide)
  · exact (((C2_write_fail_skips_read_interaction exC2w 7).2 (by decide)
      (Or.inl (by decide)) { bb := 7, wr_fail_cnt := 3 } (by decide))).trans (by decide)

/-- C6: a read-path FAIL performs no store at all (`__dust_map_read` returns
only a verdict, mirroring the C function), and a write-path FAIL produced by
the write-registry check returns the device state unchanged, so an immediate
identical write fails again with the state still unchanged. -/
theorem C6_fail_preserves_entries (dd : DustDevice) (b : Nat) :
    ((dust_rb_search dd.badblocklist_read b).isSome = true →
        __dust_map_read dd b = DM_MAPIO_KILL) ∧
    (dd.fail_write_on_bb = true → (dust_rb_search dd.badblocklist_write b).isSome = true →
        __dust_map_write dd b = (DM_MAPIO_KILL, dd) ∧
        __dust_map_write (__dust_map_write dd b).2 b = (DM_MAPIO_KILL, dd)) := by
  constructor
  · intro h
    cases hs : dust_rb_search dd.badblocklist_read b with
    | none => rw [hs] at h; simp at h
    | some e => simp [__dust_map_read, hs]
  · intro h1 h2
    have hfst : __dust_map_write dd b = (DM_MAPIO_KILL, dd) := by
      simp [__dust_map_write, h1, h2]
    refine ⟨hfst, ?_⟩
    rw [hfst]
    exact hfst

/-- Device with block 4 in both registries and both failure flags set. -/
def exC6 : DustDevice :=
  { dd0 with badblocklist_read := [{ bb := 4, wr_fail_cnt := 9 }],
             badblocklist_write := [{ bb := 4, wr_fail_cnt := 0 }],
             badblock_count_read := 1, badblock_count_write := 1,
             fail_read_on_bb := true, fail_write_on_bb := true }

/-- C6 witness: the frame theorem applied at block 4 of `exC6`. -/
theorem C6_witness :
    __dust_map_read exC6 4 = DM_MAPIO_KILL ∧
    __dust_map_write exC6 4 = (DM_MAPIO_KILL, exC6) :=
  ⟨(C6_fail_preserves_entries exC6 4).1 (by decide),
   ((C6_fail_preserves_entries exC6 4).2 (by decide) (by decide)).1⟩

/-- C10 (amended): `enable`/`disable` touch only the mode-selected failure
flag — both registry lists, both counters, the other flag and `quiet_mode`
are untouched — and therefore `disable(mode)` followed by `enable(mode)`
restores the exact pre-disable device state (hence mapping behaviour)
provided the selected flag was set before the disable. -/
theorem C10_enable_disable_frame (dd : DustDevice) (mode : Bool) :
    ((dust_message_enable dd mode).2.badblocklist_read = dd.badblocklist_read ∧
     (dust_message_enable dd mode).2.badblocklist_write = dd.badblocklist_write ∧
     (dust_message_enable dd mode).2.badblock_count_read = dd.badblock_count_read ∧
     (dust_message_enable dd mode).2.badblock_count_write = dd.badblock_count_write ∧
     (dust_message_enable dd mode).2.quiet_mode = dd.quiet_mode) ∧
    ((dust_message_disable dd mode).2.badblocklist_read = dd.badblocklist_read ∧
     (dust_message_disable dd mode).2.badblocklist_write = dd.badblocklist_write ∧
     (dust_message_disable dd mode).2.badblock_count_read = dd.badblock_count_read ∧
     (dust_message_disable dd mode).2.badblock_count_write = dd.badblock_count_write ∧
     (dust_message_disable dd mode).2.quiet_mode = dd.quiet_mode) ∧
    (mode = RD → (dust_message_enable dd mode).2.fail_write_on_bb = dd.fail_write_on_bb ∧
                 (dust_message_disable dd mode).2.fail_write_on_bb = dd.fail_write_on_bb) ∧
    (mode = WR → (dust_message_enable dd mode).2.fail_read_on_bb = dd.fail_read_on_bb ∧
                 (dust_message_disable dd mode).2.fail_read_on_bb = dd.fail_read_on_bb) ∧
    ((if mode = RD then dd.fail_read_on_bb else dd.fail_write_on_bb) = true →
        (dust_message_enable (dust_message_disable dd mode).2 mode).2 = dd) := by
  cases dd
  cases mode with
  | false =>
      simp only [dust_message_enable, dust_message_disable, RD, WR]
      refine ⟨by simp, by simp, by simp, by simp, ?_⟩
      intro h
      simp at h
      simp [h]
  | true =>
      simp only [dust_message_enable, dust_message_disable, RD, WR]
      refine ⟨by simp, by simp, by simp, by simp, ?_⟩
      intro h
      simp at h
      simp [h]

/-- Device with a read-registry entry at block 0 but the read-failure flag
still disabled. -/
def exC10 : DustDevice := (dust_add_block dd0 0 0 RD).2

/-- C10 counterexample to the claim as stated: with the read flag off and
block 0 in the read registry, a read of block 0 passes; after
`disable read` then `enable read`, the same read is killed — the pair does
not restore the pre-disable mapping behaviour when the flag was off. -/
theorem C10_counterexample :
    exC10.fail_read_on_bb = false ∧
    dust_map_read exC10 0 exC10.fail_read_on_bb = DM_MAPIO_REMAPPED ∧
    dust_map_read (dust_message_enable (dust_message_disable exC10 RD).2 RD).2 0
        (dust_message_enable (dust_message_disable exC10 RD).2 RD).2.fail_read_on_bb
      = DM_MAPIO_KILL := by
  decide

/-- Same device as `exC10` with the read flag enabled. -/
def exC10b : DustDevice := (dust_message_enable exC10 RD).2

/-- C10 witness: the frame theorem applied at `exC10b`, whose read flag is
set, so the disable/enable pair restores the state exactly. -/
theorem C10_witness :
    (dust_message_enable (dust_message_disable exC10b RD).2 RD).2 = exC10b :=
  (C10_enable_disable_frame exC10b RD).2.2.2.2 (by decide)

/-- Keys at or below a bound are absent from a list whose keys all exceed
the bound. -/
theorem hasKey_false_of_allGt (t : List Badblock) (k m : Nat)
    (hall : allGt k t = true) (hm : m ≤ k) : hasKey t m = false := by
  induction t with
  | nil => rfl
  | cons e r ih =>
      simp only [allGt, Bool.and_eq_true, decide_eq_true_eq] at hall
      simp only [hasKey, Bool.or_eq_false_iff]
      refine ⟨?_, ih hall.2⟩
      have h1 := hall.1
      simp only [beq_eq_false_iff_ne]
      omega

/-- A strict lower bound on all keys can be weakened. -/
theorem allGt_trans (t : List Badblock) (k j : Nat)
    (hall : allGt k t = true) (hj : j ≤ k) : allGt j t = true := by
  induction t with
  | nil => rfl
  | cons e r ih =>
      simp only [allGt, Bool.and_eq_true, decide_eq_true_eq] at hall ⊢
      exact ⟨by omega, ih hall.2⟩

/-- A successful `dust_rb_insert` of an entry above a strict lower bound
keeps the bound. -/
theorem allGt_insert (t : List Badblock) (e : Badblock) (k : Nat) :
    ∀ l', dust_rb_insert t e = some l' → allGt k t = true → k < e.bb →
      allGt k l' = true := by
  induction t with
  | nil =>
      intro l' h _ hk
      simp only [dust_rb_insert, Option.some.injEq] at h
      subst h
      simp [allGt, hk]
  | cons x r ih =>
      intro l' h hall hk
      simp only [allGt, Bool.and_eq_true, decide_eq_true_eq] at hall
      by_cases h1 : x.bb > e.bb
      · simp only [dust_rb_insert, if_pos h1, Option.some.injEq] at h
        subst h
        simp only [allGt, Bool.and_eq_true, decide_eq_true_eq]
        exact ⟨hk, hall.1, hall.2⟩
      · by_cases h2 : x.bb < e.bb
        · simp only [dust_rb_insert, if_neg h1, if_pos h2, Option.map_eq_some'] at h
          obtain ⟨l'', hl'', rfl⟩ := h
          simp only [allGt, Bool.and_eq_true, decide_eq_true_eq]
          exact ⟨hall.1, ih l'' hl'' hall.2 hk⟩
        · simp [dust_rb_insert, if_neg h1, if_neg h2] at h

/-- On a sorted registry, `dust_rb_insert` fails exactly when the key is
already present (forward direction). -/
theorem insert_none_of_hasKey (l : List Badblock) (e : Badblock)
    (hs : sortedB l = true) (hk : hasKey l e.bb = true) :
    dust_rb_insert l e = none := by
  induction l with
  | nil => simp [hasKey] at hk
  | cons x t ih =>
      simp only [sortedB, Bool.and_eq_true] at hs
      simp only [hasKey, Bool.or_eq_true, beq_iff_eq] at hk
      by_cases h1 : x.bb > e.bb
      · exfalso
        rcases hk with h | h
        · omega
        · have hfalse := hasKey_false_of_allGt t x.bb e.bb hs.1 (by omega)
          rw [h] at hfalse
          cases hfalse
      · by_cases h2 : x.bb < e.bb
        · have hk' : hasKey t e.bb = true := by
            rcases hk with h | h
            · omega
            · exact h
          simp [dust_rb_insert, if_neg h1, if_pos h2, ih hs.2 hk']
        · simp [dust_rb_insert, if_neg h1, if_neg h2]

/-- A failed `dust_rb_insert` means the key was present (any list). -/
theorem hasKey_of_insert_none (l : List Badblock) (e : Badblock) :
    dust_rb_insert l e = none → hasKey l e.bb = true := by
  induction l with
  | nil => intro h; simp [dust_rb_insert] at h
  | cons x t ih =>
      intro h
      by_cases h1 : x.bb > e.bb
      · simp [dust_rb_insert, if_pos h1] at h
      · by_cases h2 : x.bb < e.bb
        · simp only [dust_rb_insert, if_neg h1, if_pos h2, Option.map_eq_none'] at h
          simp [hasKey, ih h]
        · have hx : x.bb = e.bb := by omega
          simp [hasKey, hx]

/-- A successful `dust_rb_insert` on a sorted registry yields a sorted
registry containing the key. -/
theorem insert_some_props (l : List Badblock) (e : Badblock) :
    ∀ l', sortedB l = true → dust_rb_insert l e = some l' →
      hasKey l' e.bb = true ∧ sortedB l' = true := by
  induction l with
  | nil =>
      intro l' _ h
      simp only [dust_rb_insert, Option.some.injEq] at h
      subst h
      simp [hasKey, sortedB, allGt]
  | cons x t ih =>
      intro l' hs h
      simp only [sortedB, Bool.and_eq_true] at hs
      by_cases h1 : x.bb > e.bb
      · simp only [dust_rb_insert, if_pos h1, Option.some.injEq] at h
        subst h
        constructor
        · simp [hasKey]
        · have hgt : allGt e.bb t = true := allGt_trans t x.bb e.bb hs.1 (by omega)
          simp only [sortedB, allGt, Bool.and_eq_true, decide_eq_true_eq]
          exact ⟨⟨h1, by simpa [allGt] using hgt⟩, hs.1, hs.2⟩
      · by_cases h2 : x.bb < e.bb
        · simp only [dust_rb_insert, if_neg h1, if_pos h2, Option.map_eq_some'] at h
          obtain ⟨l'', hl'', rfl⟩ := h
          obtain ⟨hk, hsrt⟩ := ih l'' hs.2 hl''
          refine ⟨by simp [hasKey, hk], ?_⟩
          have hall : allGt x.bb l'' = true := allGt_insert t e x.bb l'' hl'' hs.1 h2
          simp only [sortedB, Bool.and_eq_true]
          exact ⟨hall, hsrt⟩
        · simp [dust_rb_insert, if_neg h1, if_neg h2] at h

/-- C7: on sorted registries (the red-black-tree invariant), two successive
`dust_add_block` calls for the same block make the second call return
`-EINVAL` (DuplicateEntry) and leave the device state exactly as the first
call left it — the failed insert mutates nothing, in either mode. -/
theorem C7_duplicate_add_no_mutation (dd : DustDevice) (b w1 w2 : Nat) (mode : Bool)
    (hr : sortedB dd.badblocklist_read = true)
    (hw : sortedB dd.badblocklist_write = true) :
    dust_add_block (dust_add_block dd b w1 mode).2 b w2 mode
      = (-EINVAL, (dust_add_block dd b w1 mode).2) := by
  cases mode with
  | false =>
      simp only [dust_add_block, RD, if_pos rfl]
      cases h1 : dust_rb_insert dd.badblocklist_read { bb := b, wr_fail_cnt := w1 % 256 } with
      | none =>
          have hk : hasKey dd.badblocklist_read b = true :=
            hasKey_of_insert_none _ _ h1
          have h2 : dust_rb_insert dd.badblocklist_read
              { bb := b, wr_fail_cnt := w2 % 256 } = none :=
            insert_none_of_hasKey _ _ hr hk
          simp [h2]
      | some l =>
          obtain ⟨hk, hs⟩ := insert_some_props dd.badblocklist_read
            { bb := b, wr_fail_cnt := w1 % 256 } l hr h1
          have h2 : dust_rb_insert l { bb := b, wr_fail_cnt := w2 % 256 } = none :=
            insert_none_of_hasKey _ _ hs hk
          simp [h2]
  | true =>
      simp only [dust_add_block, RD, if_neg (by decide : ¬(true = false))]
      cases h1 : dust_rb_insert dd.badblocklist_write { bb := b, wr_fail_cnt := w1 % 256 } with
      | none =>
          have hk : hasKey dd.badblocklist_write b = true :=
            hasKey_of_insert_none _ _ h1
          have h2 : dust_rb_insert dd.badblocklist_write
              { bb := b, wr_fail_cnt := w2 % 256 } = none :=
            insert_none_of_hasKey _ _ hw hk
          simp [h2]
      | some l =>
          obtain ⟨hk, hs⟩ := insert_some_props dd.badblocklist_write
            { bb := b, wr_fail_cnt := w1 % 256 } l hw h1
          have h2 : dust_rb_insert l { bb := b, wr_fail_cnt := w2 % 256 } = none :=
            insert_none_of_hasKey _ _ hs hk
          simp [h2]

/-- C7 witness: duplicate add of block 3 on the fresh device, read mode. -/
theorem C7_witness :
    dust_add_block (dust_add_block dd0 3 7 RD).2 3 9 RD
      = (-EINVAL, (dust_add_block dd0 3 7 RD).2) :=
  C7_duplicate_add_no_mutation dd0 3 7 9 RD (by decide) (by decide)

/-- C9: the administrative message paths accept a block argument exactly when
it is at most the device block count (`size / sect_per_block`) and a write
fail count exactly when it is at most 255 (defaulting to 0 when omitted);
every rejection returns `-EINVAL` with the device state untouched, and every
accepted call is forwarded unchanged to the registry operation. -/
theorem C9_message_range_validation (dd : DustDevice) (mode : Bool)
    (block w size : Nat) :
    (block ≤ size / dd.sect_per_block →
        dust_message_addbadblock dd mode block none size = dust_add_block dd block 0 mode ∧
        (w ≤ 255 →
          dust_message_addbadblock dd mode block (some w) size
            = dust_add_block dd block w mode) ∧
        dust_message_removebadblock dd mode block size = dust_remove_block dd block mode ∧
        dust_message_queryblock dd mode block size = (0, dd)) ∧
    (block > size / dd.sect_per_block →
        dust_message_addbadblock dd mode block none size = (-EINVAL, dd) ∧
        (w ≤ 255 →
          dust_message_addbadblock dd mode block (some w) size = (-EINVAL, dd)) ∧
        dust_message_removebadblock dd mode block size = (-EINVAL, dd) ∧
        dust_message_queryblock dd mode block size = (-EINVAL, dd)) ∧
    (w > 255 → dust_message_addbadblock dd mode block (some w) size = (-EINVAL, dd)) := by
  refine ⟨?_, ?_, ?_⟩
  · intro h
    have h' : ¬ block > size / dd.sect_per_block := by omega
    refine ⟨by simp [dust_message_addbadblock, h'], ?_,
            by simp [dust_message_removebadblock, h'],
            by simp [dust_message_queryblock, h', dust_query_block]⟩
    intro hwle
    have hw' : ¬ w > 255 := by omega
    simp [dust_message_addbadblock, h', hw']
  · intro h
    refine ⟨by simp [dust_message_addbadblock, h], ?_,
            by simp [dust_message_removebadblock, h],
            by simp [dust_message_queryblock, h]⟩
    intro hwle
    have hw' : ¬ w > 255 := by omega
    simp [dust_message_addbadblock, h, hw']
  · intro hwgt
    simp [dust_message_addbadblock, hwgt]

/-- C9 witness: on the fresh device with a 100-sector device size, block 3
is accepted (with and without a budget), block 200 is rejected, and budget
300 is rejected. -/
theorem C9_witness :
    dust_message_addbadblock dd0 RD 3 none 100 = dust_add_block dd0 3 0 RD ∧
    dust_message_addbadblock dd0 RD 3 (some 7) 100 = dust_add_block dd0 3 7 RD ∧
    dust_message_removebadblock dd0 RD 200 100 = (-EINVAL, dd0) ∧
    dust_message_addbadblock dd0 RD 3 (some 300) 100 = (-EINVAL, dd0) :=
  ⟨((C9_message_range_validation dd0 RD 3 7 100).1 (by decide)).1,
   ((C9_message_range_validation dd0 RD 3 7 100).1 (by decide)).2.1 (by decide),
   ((C9_message_range_validation dd0 RD 200 7 100).2.1 (by decide)).2.2.1,
   (C9_message_range_validation dd0 RD 3 300 100).2.2 (by decide)⟩
